import Mathlib

/-! btrfs-progs `cmds-device.c`: the `btrfs device` commands

A shallow embedding of the five handlers of `cmds-device.c`
(`cmd_add_dev`, `cmd_rm_dev`, `cmd_scan_dev`, `cmd_ready_dev`, `cmd_dev_stats`).

Each handler is a function from its argument vector and an environment `Env` to a
`Run`: the exit status together with the ordered trace of the external calls it made
and the text it printed.  The environment gives the answer of every external call.
Inside a per-device loop the answers are keyed by the loop variable `i` of the source:
every call site runs at most once per value of `i`, so a function of `i` covers every
possible sequence of answers.
-/

namespace BtrfsDevice

/-- The first argument of `scan_for_btrfs` as `cmd_scan_dev` passes it (its variable
`where`).  The source uses the two flag names `BTRFS_SCAN_LBLKID` and `BTRFS_SCAN_DEV`;
their numeric values are defined outside `cmds-device.c`, so the two scopes are kept as
the two names. -/
inductive ScanWhere
  | BTRFS_SCAN_LBLKID
  | BTRFS_SCAN_DEV
  deriving DecidableEq, Repr

/-- The update mode handed to `scan_for_btrfs`; the source only uses `BTRFS_UPDATE_KERNEL`. -/
inductive ScanUpdate
  | BTRFS_UPDATE_KERNEL
  deriving DecidableEq, Repr

/-- The control-plane requests sent with `ioctl`, each with the argument block it carries. -/
inductive Ioctl
  | BTRFS_IOC_ADD_DEV (name : String)
  | BTRFS_IOC_RM_DEV (name : String)
  | BTRFS_IOC_SCAN_DEV (name : String)
  | BTRFS_IOC_DEVICES_READY (name : String)
  | BTRFS_IOC_GET_DEV_STATS (devid nr_items flags : Nat)
  deriving DecidableEq, Repr

/-- One externally visible action of a handler. -/
inductive Event
  | open_file_or_dir (path : String)
  | open_path_or_dev_mnt (path : String)
  | close_file_or_dir (fd : Int)
  | test_dev_for_mkfs (dev : String) (force : Bool)
  | open_rdwr (path : String)
  | close (fd : Int)
  | btrfs_prepare_device (fd : Int) (dev : String) (discard : Bool)
  | ioctl (fd : Int) (req : Ioctl)
  | scan_for_btrfs (scope : ScanWhere) (update : ScanUpdate)
  | get_fs_info (path : String)
  | stdout (text : String)
  | stderr (text : String)
  | perror (text : String)
  deriving DecidableEq, Repr

/-- How a handler ends: `usage` is the call of `usage()`, which prints the usage text and
ends the process; `ret code` is a `return code;` of the handler. -/
inductive Exit
  | usage
  | ret (code : Int)
  deriving DecidableEq, Repr

/-- The result of running a handler: how it ended and what it did, in order. -/
structure Run where
  status : Exit
  trace : List Event
  deriving DecidableEq, Repr

/-- One entry of the device table filled in by `get_fs_info`
(`struct btrfs_ioctl_dev_info_args`): the fields `cmd_dev_stats` reads. -/
structure DevInfo where
  devid : Nat
  path : String
  deriving DecidableEq, Repr

/-- The environment of a handler: the header constants that are not defined in
`cmds-device.c`, and the answers of the external calls.  A leading `Nat` argument is the
value of the loop variable `i` at the call. -/
structure Env where
  /-- maximum length of the name carried by `struct btrfs_ioctl_vol_args` -/
  BTRFS_PATH_NAME_MAX : Nat
  /-- maximum length of a device path in `struct btrfs_ioctl_dev_info_args` -/
  BTRFS_DEVICE_PATH_NAME_MAX : Nat
  /-- the flag of `BTRFS_IOC_GET_DEV_STATS` asking to reset the counters -/
  BTRFS_DEV_STATS_RESET : Nat
  /-- the descriptor returned by `open_file_or_dir(path, &dirstream)` -/
  open_file_or_dir : String → Int
  /-- the descriptor returned by `open_path_or_dev_mnt(path, &dirstream)` -/
  open_path_or_dev_mnt : String → Int
  /-- the result of `test_dev_for_mkfs(dev, force, estr)` and the text left in `estr` -/
  test_dev_for_mkfs : Nat → String → Bool → Int × String
  /-- the descriptor returned by `open(path, O_RDWR)` on a device -/
  open_rdwr : Nat → String → Int
  /-- the result of `btrfs_prepare_device(fd, dev, 1, &count, 0, &mixed, discard)` -/
  btrfs_prepare_device : Nat → Int → String → Bool → Int
  /-- the descriptor returned by `open("/dev/btrfs-control", O_RDWR)` -/
  open_control : Int
  /-- the result of `ioctl(fd, request, &args)` and the value of `errno` after it -/
  ioctl : Nat → Int → Ioctl → Int × Int
  /-- the `nr_items` and the array `values` the driver leaves in the argument block of
  a `BTRFS_IOC_GET_DEV_STATS` request -/
  dev_stats_reply : Nat → Nat × (Nat → Nat)
  /-- the result of `scan_for_btrfs(where, update)` -/
  scan_for_btrfs : ScanWhere → ScanUpdate → Int
  /-- the result of `get_fs_info(path, &fi_args, &di_args)`: the return value,
  `fi_args.num_devices` and the array `di_args` -/
  get_fs_info : String → Int × Nat × (Nat → DevInfo)
  /-- the text `strerror(e)` of the C library -/
  strerror : Int → String
  /-- the text `btrfs_err_str(code)` of the driver error table -/
  btrfs_err_str : Int → String

/-- The C value of `!!x`. -/
def notnot (x : Int) : Int := if x ≠ 0 then 1 else 0

/-- Modelled from the spec: `check_argc_min` of the repository is not part of the source at
hand; section 4.4 and 4.6 describe it as the minimum-argument check, nonzero (true here)
when fewer than `expected` arguments are present. -/
def check_argc_min (nargs expected : Nat) : Bool := decide (nargs < expected)

/-- Modelled from the spec: `check_argc_max` of the repository is not part of the source at
hand; section 4.5 describes it as the test for extraneous arguments, nonzero (true here)
when more than `expected` arguments are present. -/
def check_argc_max (nargs expected : Nat) : Bool := decide (expected < nargs)

/-- Modelled from the spec: `strncpy_null` of the repository is not part of the source at
hand; sections 3 and 6 describe the name field as bounded to a fixed maximum path length
with silent truncation, so the field holds the first `bound` characters of the name. -/
def strncpy_null (bound : Nat) (s : String) : String := String.mk (s.data.take bound)

/-- The C library call `strncpy(dest, src, n)` seen as the string it leaves in the first
`n` bytes of `dest`: the first `n` characters of `src` (a shorter `src` is copied whole
and padded with NUL bytes). -/
def strncpy (n : Nat) (s : String) : String := String.mk (s.data.take n)

/-- The element `argv[i]` of the argument vector. -/
def arg (argv : List String) (i : Nat) : String := argv.getD i ""

/-! ## `btrfs device delete` -/

/-- The text printed when a detach request fails. -/
def rm_dev_error (dev text : String) : String :=
  "ERROR: error removing the device '" ++ dev ++ "' - " ++ text ++ "\n"

/-- The loop `for(i=1 ; i < argc - 1; i++ )` of `cmd_rm_dev`: the first argument counts the
iterations left, then come `i`, `ret` and the trace so far. -/
def rm_dev_loop (env : Env) (argv : List String) (fdmnt : Int) :
    Nat → Nat → Int → List Event → Int × List Event
  | 0, _, ret, tr => (ret, tr)
  | n + 1, i, ret, tr =>
    let name := strncpy_null env.BTRFS_PATH_NAME_MAX (arg argv i)
    let res := (env.ioctl i fdmnt (.BTRFS_IOC_RM_DEV name)).1
    let e := (env.ioctl i fdmnt (.BTRFS_IOC_RM_DEV name)).2
    let tr := tr ++ [.ioctl fdmnt (.BTRFS_IOC_RM_DEV name)]
    if res > 0 then
      rm_dev_loop env argv fdmnt n (i + 1) (ret + 1)
        (tr ++ [.stderr (rm_dev_error (arg argv i) (env.btrfs_err_str res))])
    else if res < 0 then
      rm_dev_loop env argv fdmnt n (i + 1) (ret + 1)
        (tr ++ [.stderr (rm_dev_error (arg argv i) (env.strerror e))])
    else
      rm_dev_loop env argv fdmnt n (i + 1) ret tr

/-- The handler `cmd_rm_dev(argc, argv)`, with `argc = argv.length`. -/
def cmd_rm_dev (env : Env) (argv : List String) : Run :=
  let argc := argv.length
  if check_argc_min argc 3 then
    ⟨.usage, []⟩
  else
    let mntpnt := arg argv (argc - 1)
    let fdmnt := env.open_file_or_dir mntpnt
    if fdmnt < 0 then
      ⟨.ret 1, [.open_file_or_dir mntpnt,
        .stderr ("ERROR: can't access to '" ++ mntpnt ++ "'\n")]⟩
    else
      let r := rm_dev_loop env argv fdmnt (argc - 1 - 1) 1 0 [.open_file_or_dir mntpnt]
      ⟨.ret (notnot r.1), r.2 ++ [.close_file_or_dir fdmnt]⟩

/-! ## `btrfs device add` -/

/-- The option loop of `cmd_add_dev`.  The list holds the values `getopt_long` returns
before it returns a negative one; the pair is `(discard, force)`; `none` is the call of
`usage` in the `default` case. -/
def add_dev_options : List Char → Bool × Bool → Option (Bool × Bool)
  | [], st => some st
  | c :: cs, st =>
    if c = 'K' then add_dev_options cs (false, st.2)
    else if c = 'f' then add_dev_options cs (st.1, true)
    else none

/-- The loop `for (i = optind; i < optind + argc - 1; i++)` of `cmd_add_dev`: the first
argument counts the iterations left, then come `i`, `ret` and the trace so far. -/
def add_dev_loop (env : Env) (argv : List String) (fdmnt : Int) (discard force : Bool) :
    Nat → Nat → Int → List Event → Int × List Event
  | 0, _, ret, tr => (ret, tr)
  | n + 1, i, ret, tr =>
    let res := (env.test_dev_for_mkfs i (arg argv i) force).1
    let estr := (env.test_dev_for_mkfs i (arg argv i) force).2
    let tr := tr ++ [.test_dev_for_mkfs (arg argv i) force]
    if res ≠ 0 then
      add_dev_loop env argv fdmnt discard force n (i + 1) (ret + 1) (tr ++ [.stderr estr])
    else
      let devfd := env.open_rdwr i (arg argv i)
      let tr := tr ++ [.open_rdwr (arg argv i)]
      if devfd < 0 then
        add_dev_loop env argv fdmnt discard force n (i + 1) (ret + 1)
          (tr ++ [.stderr ("ERROR: Unable to open device '" ++ arg argv i ++ "'\n")])
      else
        let res := env.btrfs_prepare_device i devfd (arg argv i) discard
        let tr := tr ++ [.btrfs_prepare_device devfd (arg argv i) discard]
        if res ≠ 0 then
          add_dev_loop env argv fdmnt discard force n (i + 1) (ret + 1)
            (tr ++ [.stderr ("ERROR: Unable to init '" ++ arg argv i ++ "'\n"), .close devfd])
        else
          let name := strncpy_null env.BTRFS_PATH_NAME_MAX (arg argv i)
          let res := (env.ioctl i fdmnt (.BTRFS_IOC_ADD_DEV name)).1
          let e := (env.ioctl i fdmnt (.BTRFS_IOC_ADD_DEV name)).2
          let tr := tr ++ [.close devfd, .ioctl fdmnt (.BTRFS_IOC_ADD_DEV name)]
          if res < 0 then
            add_dev_loop env argv fdmnt discard force n (i + 1) (ret + 1)
              (tr ++ [.stderr ("ERROR: error adding the device '" ++ arg argv i ++ "' - "
                ++ env.strerror e ++ "\n")])
          else
            add_dev_loop env argv fdmnt discard force n (i + 1) ret tr

/-- The handler `cmd_add_dev(argc, argv)`.  `opts` is the sequence of option characters
`getopt_long` hands out and `optind` the index it leaves behind, so that the devices and
the target path are `argv[optind], ..., argv[argv.length - 1]`. -/
def cmd_add_dev (env : Env) (argv : List String) (opts : List Char) (optind : Nat) : Run :=
  match add_dev_options opts (true, false) with
  | none => ⟨.usage, []⟩
  | some st =>
    let argc := argv.length - optind
    if check_argc_min argc 2 then
      ⟨.usage, []⟩
    else
      let mntpnt := arg argv (optind + argc - 1)
      let fdmnt := env.open_file_or_dir mntpnt
      if fdmnt < 0 then
        ⟨.ret 1, [.open_file_or_dir mntpnt,
          .stderr ("ERROR: can't access to '" ++ mntpnt ++ "'\n")]⟩
      else
        let r := add_dev_loop env argv fdmnt st.1 st.2 (optind + argc - 1 - optind) optind 0
          [.open_file_or_dir mntpnt]
        ⟨.ret (notnot r.1), r.2 ++ [.close_file_or_dir fdmnt]⟩

/-! ## `btrfs device scan` -/

/-- The loop `for( i = devstart ; i < argc ; i++ )` of `cmd_scan_dev` together with the
`close(fd); return 0;` that follows it: the first argument counts the iterations left,
then come `i` and the trace so far. -/
def scan_dev_loop (env : Env) (argv : List String) (fd : Int) :
    Nat → Nat → List Event → Run
  | 0, _, tr => ⟨.ret 0, tr ++ [.close fd]⟩
  | n + 1, i, tr =>
    let name := strncpy_null env.BTRFS_PATH_NAME_MAX (arg argv i)
    let ret := (env.ioctl i fd (.BTRFS_IOC_SCAN_DEV name)).1
    let e := (env.ioctl i fd (.BTRFS_IOC_SCAN_DEV name)).2
    let tr := tr ++ [.stdout ("Scanning for Btrfs filesystems in '" ++ arg argv i ++ "'\n"),
      .ioctl fd (.BTRFS_IOC_SCAN_DEV name)]
    if ret < 0 then
      ⟨.ret 1, tr ++ [.close fd,
        .stderr ("ERROR: unable to scan the device '" ++ arg argv i ++ "' - "
          ++ env.strerror e ++ "\n")]⟩
    else
      scan_dev_loop env argv fd n (i + 1) tr

/-- The handler `cmd_scan_dev(argc, argv)`, with `argc = argv.length`. -/
def cmd_scan_dev (env : Env) (argv : List String) : Run :=
  let argc := argv.length
  let all := decide (argc > 1) && (arg argv 1 == "--all-devices")
  if all && check_argc_max argc 2 then
    ⟨.usage, []⟩
  else
    let scope := if all then ScanWhere.BTRFS_SCAN_DEV else ScanWhere.BTRFS_SCAN_LBLKID
    let devstart := if all then 1 + 1 else 1
    if argc ≤ devstart then
      let ret := env.scan_for_btrfs scope .BTRFS_UPDATE_KERNEL
      let tr := [Event.stdout "Scanning for Btrfs filesystems\n",
        .scan_for_btrfs scope .BTRFS_UPDATE_KERNEL]
      if ret ≠ 0 then
        ⟨.ret 1, tr ++ [.stderr ("ERROR: error " ++ toString ret ++ " while scanning\n")]⟩
      else
        ⟨.ret 0, tr⟩
    else
      let fd := env.open_control
      if fd < 0 then
        ⟨.ret 1, [.open_rdwr "/dev/btrfs-control",
          .perror "failed to open /dev/btrfs-control"]⟩
      else
        scan_dev_loop env argv fd (argc - devstart) devstart [.open_rdwr "/dev/btrfs-control"]

/-! ## `btrfs device ready` -/

/-- The handler `cmd_ready_dev(argc, argv)`, with `argc = argv.length`. -/
def cmd_ready_dev (env : Env) (argv : List String) : Run :=
  let argc := argv.length
  if check_argc_min argc 2 then
    ⟨.usage, []⟩
  else
    let fd := env.open_control
    if fd < 0 then
      ⟨.ret 1, [.open_rdwr "/dev/btrfs-control", .perror "failed to open /dev/btrfs-control"]⟩
    else
      let name := strncpy env.BTRFS_PATH_NAME_MAX (arg argv (argc - 1))
      let ret := (env.ioctl 0 fd (.BTRFS_IOC_DEVICES_READY name)).1
      let e := (env.ioctl 0 fd (.BTRFS_IOC_DEVICES_READY name)).2
      let tr := [Event.open_rdwr "/dev/btrfs-control", .ioctl fd (.BTRFS_IOC_DEVICES_READY name)]
      if ret < 0 then
        ⟨.ret 1, tr ++ [.stderr ("ERROR: unable to determine if the device '"
          ++ arg argv (argc - 1) ++ "' is ready for mounting - " ++ env.strerror e ++ "\n"),
          .close fd]⟩
      else
        ⟨.ret ret, tr ++ [.close fd]⟩

/-! ## `btrfs device stats` -/

/-- Modelled from the spec: the enumeration of counter kinds in `ioctl.h` is not part of
the source at hand; section 3 lists the five counters in the order write, read, flush,
corruption, generation, which gives the indices into `values`. -/
def BTRFS_DEV_STAT_WRITE_ERRS : Nat := 0

/-- Modelled from the spec: second counter kind of section 3 (see
`BTRFS_DEV_STAT_WRITE_ERRS`). -/
def BTRFS_DEV_STAT_READ_ERRS : Nat := 1

/-- Modelled from the spec: third counter kind of section 3 (see
`BTRFS_DEV_STAT_WRITE_ERRS`). -/
def BTRFS_DEV_STAT_FLUSH_ERRS : Nat := 2

/-- Modelled from the spec: fourth counter kind of section 3 (see
`BTRFS_DEV_STAT_WRITE_ERRS`). -/
def BTRFS_DEV_STAT_CORRUPTION_ERRS : Nat := 3

/-- Modelled from the spec: fifth counter kind of section 3 (see
`BTRFS_DEV_STAT_WRITE_ERRS`). -/
def BTRFS_DEV_STAT_GENERATION_ERRS : Nat := 4

/-- Modelled from the spec: the number of counter kinds, five in section 3 (see
`BTRFS_DEV_STAT_WRITE_ERRS`). -/
def BTRFS_DEV_STAT_VALUES_MAX : Nat := 5

/-- The option loop of `cmd_dev_stats`.  The list holds the values `getopt` returns
before it returns -1; the number is `flags`; `none` is the `return 1` of the `default`
case. -/
def dev_stats_options (env : Env) : List Char → Nat → Option Nat
  | [], flags => some flags
  | c :: cs, _ =>
    if c = 'z' then dev_stats_options env cs env.BTRFS_DEV_STATS_RESET
    else none

/-- The five conditional `printf` calls of `cmd_dev_stats` for one device, given the
`nr_items` and `values` the driver left in the argument block. -/
def dev_stats_print (path : String) (nr_items : Nat) (values : Nat → Nat) : List Event :=
  (if nr_items ≥ BTRFS_DEV_STAT_WRITE_ERRS + 1 then
    [Event.stdout ("[" ++ path ++ "].write_io_errs   "
      ++ toString (values BTRFS_DEV_STAT_WRITE_ERRS) ++ "\n")] else [])
  ++ (if nr_items ≥ BTRFS_DEV_STAT_READ_ERRS + 1 then
    [Event.stdout ("[" ++ path ++ "].read_io_errs    "
      ++ toString (values BTRFS_DEV_STAT_READ_ERRS) ++ "\n")] else [])
  ++ (if nr_items ≥ BTRFS_DEV_STAT_FLUSH_ERRS + 1 then
    [Event.stdout ("[" ++ path ++ "].flush_io_errs   "
      ++ toString (values BTRFS_DEV_STAT_FLUSH_ERRS) ++ "\n")] else [])
  ++ (if nr_items ≥ BTRFS_DEV_STAT_CORRUPTION_ERRS + 1 then
    [Event.stdout ("[" ++ path ++ "].corruption_errs "
      ++ toString (values BTRFS_DEV_STAT_CORRUPTION_ERRS) ++ "\n")] else [])
  ++ (if nr_items ≥ BTRFS_DEV_STAT_GENERATION_ERRS + 1 then
    [Event.stdout ("[" ++ path ++ "].generation_errs "
      ++ toString (values BTRFS_DEV_STAT_GENERATION_ERRS) ++ "\n")] else [])

/-- The loop `for (i = 0; i < fi_args.num_devices; i++)` of `cmd_dev_stats`: the first
argument counts the iterations left, then come `i`, `err` and the trace so far.  The
source counts with an `int`, which is exact for every device table that fits in memory. -/
def dev_stats_loop (env : Env) (di_args : Nat → DevInfo) (fdmnt : Int) (flags : Nat) :
    Nat → Nat → Int → List Event → Int × List Event
  | 0, _, err, tr => (err, tr)
  | n + 1, i, err, tr =>
    let path := strncpy env.BTRFS_DEVICE_PATH_NAME_MAX (di_args i).path
    let req := Ioctl.BTRFS_IOC_GET_DEV_STATS (di_args i).devid BTRFS_DEV_STAT_VALUES_MAX flags
    let tr := tr ++ [.ioctl fdmnt req]
    if (env.ioctl i fdmnt req).1 < 0 then
      dev_stats_loop env di_args fdmnt flags n (i + 1) 1
        (tr ++ [.stderr ("ERROR: ioctl(BTRFS_IOC_GET_DEV_STATS) on " ++ path ++ " failed: "
          ++ env.strerror (env.ioctl i fdmnt req).2 ++ "\n")])
    else
      dev_stats_loop env di_args fdmnt flags n (i + 1) err
        (tr ++ dev_stats_print path (env.dev_stats_reply i).1 (env.dev_stats_reply i).2)

/-- The handler `cmd_dev_stats(argc, argv)`, with `argc = argv.length`.  `opts` is the
sequence of option characters `getopt` hands out and `optind` the index it leaves
behind. -/
def cmd_dev_stats (env : Env) (argv : List String) (opts : List Char) (optind : Nat) : Run :=
  match dev_stats_options env opts 0 with
  | none =>
    ⟨.ret 1, [.stderr ("ERROR: device stat args invalid.\n"
      ++ " device stat [-z] <path>|<device>\n"
      ++ " -z  to reset stats after reading.\n")]⟩
  | some flags =>
    if optind + 1 ≠ argv.length then
      ⟨.ret 1, [.stderr "ERROR: device stat needs path|device as single argument\n"]⟩
    else
      let dev_path := arg argv optind
      let fdmnt := env.open_path_or_dev_mnt dev_path
      if fdmnt < 0 then
        ⟨.ret 1, [.open_path_or_dev_mnt dev_path,
          .stderr ("ERROR: can't access '" ++ dev_path ++ "'\n")]⟩
      else
        let ret := (env.get_fs_info dev_path).1
        let num_devices := (env.get_fs_info dev_path).2.1
        let di_args := (env.get_fs_info dev_path).2.2
        let tr := [Event.open_path_or_dev_mnt dev_path, .get_fs_info dev_path]
        if ret ≠ 0 then
          ⟨.ret 1, tr ++ [.stderr ("ERROR: getting dev info for devstats failed: "
            ++ env.strerror (-ret) ++ "\n"), .close_file_or_dir fdmnt]⟩
        else if num_devices = 0 then
          ⟨.ret 1, tr ++ [.stderr "ERROR: no devices found\n", .close_file_or_dir fdmnt]⟩
        else
          let r := dev_stats_loop env di_args fdmnt flags num_devices 0 0 tr
          ⟨.ret r.1, r.2 ++ [.close_file_or_dir fdmnt]⟩

/-! ## Reading a trace -/

/-- The request of an `ioctl` event. -/
def Event.request : Event → Option Ioctl
  | .ioctl _ req => some req
  | _ => none

/-- The text of a write to standard error. -/
def Event.err_text : Event → Option String
  | .stderr text => some text
  | _ => none

/-- The text of a write to standard output. -/
def Event.out_text : Event → Option String
  | .stdout text => some text
  | _ => none

/-- The device handed to a `test_dev_for_mkfs` call. -/
def Event.tested : Event → Option String
  | .test_dev_for_mkfs dev _ => some dev
  | _ => none

/-- The scope and update mode of a `scan_for_btrfs` call. -/
def Event.probe : Event → Option (ScanWhere × ScanUpdate)
  | .scan_for_btrfs scope update => some (scope, update)
  | _ => none

/-- The path of an `open(path, O_RDWR)` call. -/
def Event.opened : Event → Option String
  | .open_rdwr path => some path
  | _ => none

/-! ## Specification-side vocabulary -/

/-- The driver's answer (return value, `errno`) to the detach request `cmd_rm_dev` sends
for `argv[i]` on the descriptor `fdmnt`. -/
def rm_dev_answer (env : Env) (argv : List String) (fdmnt : Int) (i : Nat) : Int × Int :=
  env.ioctl i fdmnt (.BTRFS_IOC_RM_DEV (strncpy_null env.BTRFS_PATH_NAME_MAX (arg argv i)))

/-- What `delete` is to print on standard error for `argv[i]`: the driver-defined message
of a positive answer, the system error string of a negative one, nothing for zero. -/
def rm_dev_report (env : Env) (argv : List String) (fdmnt : Int) (i : Nat) : Option String :=
  if 0 < (rm_dev_answer env argv fdmnt i).1 then
    some (rm_dev_error (arg argv i) (env.btrfs_err_str (rm_dev_answer env argv fdmnt i).1))
  else if (rm_dev_answer env argv fdmnt i).1 < 0 then
    some (rm_dev_error (arg argv i) (env.strerror (rm_dev_answer env argv fdmnt i).2))
  else none

/-- Whether `argv[i]` passes the three steps that precede the attach request of `add`:
the suitability check, the open and the preparation. -/
def add_dev_prepared (env : Env) (argv : List String) (discard force : Bool) (i : Nat) :
    Bool :=
  decide ((env.test_dev_for_mkfs i (arg argv i) force).1 = 0)
  && decide (0 ≤ env.open_rdwr i (arg argv i))
  && decide (env.btrfs_prepare_device i (env.open_rdwr i (arg argv i)) (arg argv i) discard
      = 0)

/-- Whether `argv[i]` fails at some step of `add`: one of the three preparing steps, or
the attach request (a negative answer of the driver). -/
def add_dev_failed (env : Env) (argv : List String) (fdmnt : Int) (discard force : Bool)
    (i : Nat) : Bool :=
  !add_dev_prepared env argv discard force i
  || decide ((env.ioctl i fdmnt
      (.BTRFS_IOC_ADD_DEV (strncpy_null env.BTRFS_PATH_NAME_MAX (arg argv i)))).1 < 0)

/-- The return value of the driver for the scan request `cmd_scan_dev` sends for
`argv[i]` on the descriptor `fd`. -/
def scan_dev_answer (env : Env) (argv : List String) (fd : Int) (i : Nat) : Int :=
  (env.ioctl i fd
    (.BTRFS_IOC_SCAN_DEV (strncpy_null env.BTRFS_PATH_NAME_MAX (arg argv i)))).1

/-- The counter kinds in the fixed order of the report. -/
def counter_kinds : List String :=
  ["write_io_errs", "read_io_errs", "flush_io_errs", "corruption_errs", "generation_errs"]

/-- One line of the report for a device path, a counter kind and a value: the path in
brackets, a dot, the kind filled with blanks to a width of sixteen, the value in decimal
and a line end. -/
def stats_report_line (path kind : String) (value : Nat) : String :=
  "[" ++ path ++ ("]." ++ kind ++ String.mk (List.replicate (16 - kind.length) ' '))
    ++ toString value ++ "\n"

/-- The request `cmd_dev_stats` sends for entry `i` of the device table. -/
def dev_stats_request (di_args : Nat → DevInfo) (flags : Nat) (i : Nat) : Ioctl :=
  .BTRFS_IOC_GET_DEV_STATS (di_args i).devid BTRFS_DEV_STAT_VALUES_MAX flags

/-! ## Example environments -/

/-- An environment in which every call succeeds and the driver reports nothing. -/
def Env.quiet : Env where
  BTRFS_PATH_NAME_MAX := 4087
  BTRFS_DEVICE_PATH_NAME_MAX := 1024
  BTRFS_DEV_STATS_RESET := 1
  open_file_or_dir := fun _ => 3
  open_path_or_dev_mnt := fun _ => 3
  test_dev_for_mkfs := fun _ _ _ => (0, "")
  open_rdwr := fun _ _ => 4
  btrfs_prepare_device := fun _ _ _ _ => 0
  open_control := 3
  ioctl := fun _ _ _ => (0, 0)
  dev_stats_reply := fun _ => (5, fun _ => 0)
  scan_for_btrfs := fun _ _ => 0
  get_fs_info := fun _ => (0, 1, fun _ => ⟨1, "/dev/sda"⟩)
  strerror := fun e => "errno " ++ toString e
  btrfs_err_str := fun c => "btrfs error " ++ toString c

/-- The environment of the `delete` example: the driver answers the request for `argv[1]`
with the protocol code 3, the one for `argv[2]` with a failure and `errno` 19, and the
others with success. -/
def rm_dev_example_env : Env :=
  { Env.quiet with
    ioctl := fun i _ _ => if i = 1 then (3, 0) else if i = 2 then (-1, 19) else (0, 0) }

/-- The environment of the `add` example: preparation fails for `argv[2]` and every other
step succeeds. -/
def add_dev_example_env : Env :=
  { Env.quiet with btrfs_prepare_device := fun i _ _ _ => if i = 2 then 1 else 0 }

/-- The environment of the failing `add` example: the suitability check rejects every
device. -/
def add_dev_reject_env : Env :=
  { Env.quiet with test_dev_for_mkfs := fun _ _ _ => (1, "error checking device\n") }

/-- The environment of the `scan` example: the request for `argv[1]` fails. -/
def scan_dev_example_env : Env :=
  { Env.quiet with ioctl := fun i _ _ => if i = 1 then (-1, 5) else (0, 0) }

/-- The environment of the `ready` example: the driver answers the query with 7. -/
def ready_dev_example_env : Env :=
  { Env.quiet with ioctl := fun _ _ _ => (7, 0) }

/-- The environment of the name example: a name bound of four characters. -/
def short_name_env : Env :=
  { Env.quiet with BTRFS_PATH_NAME_MAX := 4 }

/-- The environment of the first `stats` example: two member devices with the ids 1 and
2. -/
def dev_stats_two_env : Env :=
  { Env.quiet with get_fs_info := fun _ => (0, 2, fun i => ⟨i + 1, "/dev/sda"⟩) }

/-- The environment of the second `stats` example: one device, for which the driver
populates three slots with the values 10, 11 and 12. -/
def dev_stats_three_env : Env :=
  { Env.quiet with dev_stats_reply := fun _ => (3, fun k => k + 10) }

/-! ## `delete`: one request per name, two error channels -/

theorem rm_dev_loop_requests (env : Env) (argv : List String) (fd : Int) :
    ∀ (n i : Nat) (ret : Int) (tr : List Event),
      (rm_dev_loop env argv fd n i ret tr).2.filterMap Event.request
        = tr.filterMap Event.request ++ (List.range' i n).map (fun j =>
            Ioctl.BTRFS_IOC_RM_DEV (strncpy_null env.BTRFS_PATH_NAME_MAX (arg argv j))) := by
  intro n
  induction n with
  | zero => intro i ret tr; simp [rm_dev_loop]
  | succ n ih =>
    intro i ret tr
    simp only [rm_dev_loop]
    split_ifs <;> simp [ih, List.range'_succ, Event.request]

theorem rm_dev_loop_reports (env : Env) (argv : List String) (fd : Int) :
    ∀ (n i : Nat) (ret : Int) (tr : List Event),
      (rm_dev_loop env argv fd n i ret tr).2.filterMap Event.err_text
        = tr.filterMap Event.err_text
          ++ (List.range' i n).filterMap (rm_dev_report env argv fd) := by
  intro n
  induction n with
  | zero => intro i ret tr; simp [rm_dev_loop]
  | succ n ih =>
    intro i ret tr
    simp only [rm_dev_loop]
    split_ifs with h1 h2
    · have hr : rm_dev_report env argv fd i = some (rm_dev_error (arg argv i)
          (env.btrfs_err_str (rm_dev_answer env argv fd i).1)) := by
        simp only [rm_dev_report, rm_dev_answer]; rw [if_pos h1]
      simp [ih, List.range'_succ, Event.err_text, List.filterMap_cons, hr, rm_dev_answer]
    · have hr : rm_dev_report env argv fd i = some (rm_dev_error (arg argv i)
          (env.strerror (rm_dev_answer env argv fd i).2)) := by
        simp only [rm_dev_report, rm_dev_answer]; rw [if_neg h1, if_pos h2]
      simp [ih, List.range'_succ, Event.err_text, List.filterMap_cons, hr, rm_dev_answer]
    · have hr : rm_dev_report env argv fd i = none := by
        simp only [rm_dev_report, rm_dev_answer]; rw [if_neg h1, if_neg h2]
      simp [ih, List.range'_succ, Event.err_text, List.filterMap_cons, hr]

theorem rm_dev_loop_ret (env : Env) (argv : List String) (fd : Int) :
    ∀ (n i : Nat) (ret : Int) (tr : List Event),
      (rm_dev_loop env argv fd n i ret tr).1
        = ret + (((List.range' i n).filter (fun j =>
            decide ((rm_dev_answer env argv fd j).1 ≠ 0))).length : Int) := by
  intro n
  induction n with
  | zero => intro i ret tr; simp [rm_dev_loop]
  | succ n ih =>
    intro i ret tr
    simp only [rm_dev_loop]
    split_ifs with h1 h2
    · have : (rm_dev_answer env argv fd i).1 ≠ 0 := by simp only [rm_dev_answer]; omega
      simp [ih, List.range'_succ, List.filter_cons, this]; ring
    · have : (rm_dev_answer env argv fd i).1 ≠ 0 := by simp only [rm_dev_answer]; omega
      simp [ih, List.range'_succ, List.filter_cons, this]; ring
    · have : (rm_dev_answer env argv fd i).1 = 0 := by simp only [rm_dev_answer]; omega
      simp [ih, List.range'_succ, List.filter_cons, this]

theorem cmd_rm_dev_run (env : Env) (argv : List String) (hargs : 3 ≤ argv.length)
    (hopen : 0 ≤ env.open_file_or_dir (arg argv (argv.length - 1))) :
    cmd_rm_dev env argv
      = ⟨.ret (notnot (rm_dev_loop env argv
            (env.open_file_or_dir (arg argv (argv.length - 1))) (argv.length - 2) 1 0
            [.open_file_or_dir (arg argv (argv.length - 1))]).1),
          (rm_dev_loop env argv
            (env.open_file_or_dir (arg argv (argv.length - 1))) (argv.length - 2) 1 0
            [.open_file_or_dir (arg argv (argv.length - 1))]).2
          ++ [.close_file_or_dir (env.open_file_or_dir (arg argv (argv.length - 1)))]⟩ := by
  have hmin : check_argc_min argv.length 3 = false := by
    simp only [check_argc_min, decide_eq_false_iff_not]; omega
  have hfd : ¬ env.open_file_or_dir (arg argv (argv.length - 1)) < 0 := by omega
  have hcount : argv.length - 1 - 1 = argv.length - 2 := by omega
  simp only [cmd_rm_dev, hmin, if_neg hfd, hcount]
  simp

/-- C2: in a `delete` run with at least one device name and a target path that opens,
the requests sent are one `BTRFS_IOC_RM_DEV` per name `argv[1], ..., argv[argc-2]`, in
that order, whatever the driver answers; the text on standard error is, per name and in
order, the message built from `btrfs_err_str(res)` when the answer `res` is positive, the
message built from `strerror(errno)` when it is negative, and nothing when it is zero;
the exit status is 1 when some answer is nonzero and 0 when all are zero. -/
theorem rm_dev_requests_reports_status (env : Env) (argv : List String)
    (hargs : 3 ≤ argv.length)
    (hopen : 0 ≤ env.open_file_or_dir (arg argv (argv.length - 1))) :
    (cmd_rm_dev env argv).trace.filterMap Event.request
        = (List.range' 1 (argv.length - 2)).map (fun i =>
            Ioctl.BTRFS_IOC_RM_DEV (strncpy_null env.BTRFS_PATH_NAME_MAX (arg argv i)))
    ∧ (cmd_rm_dev env argv).trace.filterMap Event.err_text
        = (List.range' 1 (argv.length - 2)).filterMap (fun i =>
            if 0 < (rm_dev_answer env argv
                (env.open_file_or_dir (arg argv (argv.length - 1))) i).1 then
              some (rm_dev_error (arg argv i) (env.btrfs_err_str (rm_dev_answer env argv
                (env.open_file_or_dir (arg argv (argv.length - 1))) i).1))
            else if (rm_dev_answer env argv
                (env.open_file_or_dir (arg argv (argv.length - 1))) i).1 < 0 then
              some (rm_dev_error (arg argv i) (env.strerror (rm_dev_answer env argv
                (env.open_file_or_dir (arg argv (argv.length - 1))) i).2))
            else none)
    ∧ ((∃ i, 1 ≤ i ∧ i < argv.length - 1 ∧ (rm_dev_answer env argv
          (env.open_file_or_dir (arg argv (argv.length - 1))) i).1 ≠ 0)
        → (cmd_rm_dev env argv).status = .ret 1)
    ∧ ((∀ i, 1 ≤ i → i < argv.length - 1 → (rm_dev_answer env argv
          (env.open_file_or_dir (arg argv (argv.length - 1))) i).1 = 0)
        → (cmd_rm_dev env argv).status = .ret 0) := by
  have hrun := cmd_rm_dev_run env argv hargs hopen
  refine ⟨?_, ?_, ?_, ?_⟩
  · rw [hrun]
    simp [rm_dev_loop_requests, Event.request]
  · rw [hrun]
    simp only [List.filterMap_append, rm_dev_loop_reports]
    simp [Event.err_text]
    rfl
  · rintro ⟨i, h1, h2, hne⟩
    rw [hrun]
    simp only [rm_dev_loop_ret, notnot, zero_add]
    have hmem : i ∈ (List.range' 1 (argv.length - 2)).filter (fun j =>
        decide ((rm_dev_answer env argv
          (env.open_file_or_dir (arg argv (argv.length - 1))) j).1 ≠ 0)) := by
      simp only [List.mem_filter, List.mem_range'_1, decide_eq_true_eq]
      exact ⟨⟨h1, by omega⟩, hne⟩
    have hpos := List.length_pos_of_mem hmem
    rw [if_pos (by exact_mod_cast hpos.ne')]
  · intro hall
    rw [hrun]
    simp only [rm_dev_loop_ret, notnot, zero_add]
    have hnil : (List.range' 1 (argv.length - 2)).filter (fun j =>
        decide ((rm_dev_answer env argv
          (env.open_file_or_dir (arg argv (argv.length - 1))) j).1 ≠ 0)) = [] := by
      rw [List.filter_eq_nil_iff]
      intro j hj
      simp only [List.mem_range'_1] at hj
      simp [hall j hj.1 (by omega)]
    rw [hnil]
    simp

/-- Witness for C2: `delete a b c /mnt` where the driver answers 3 for `a`, fails with
`errno` 19 for `b` and succeeds for `c`. -/
theorem rm_dev_requests_reports_status_witness :
    3 ≤ ["delete", "a", "b", "c", "/mnt"].length
    ∧ 0 ≤ rm_dev_example_env.open_file_or_dir (arg ["delete", "a", "b", "c", "/mnt"] 4)
    ∧ (cmd_rm_dev rm_dev_example_env ["delete", "a", "b", "c", "/mnt"]).trace.filterMap
          Event.request
        = [.BTRFS_IOC_RM_DEV "a", .BTRFS_IOC_RM_DEV "b", .BTRFS_IOC_RM_DEV "c"]
    ∧ (cmd_rm_dev rm_dev_example_env ["delete", "a", "b", "c", "/mnt"]).trace.filterMap
          Event.err_text
        = ["ERROR: error removing the device 'a' - btrfs error 3\n",
           "ERROR: error removing the device 'b' - errno 19\n"]
    ∧ (cmd_rm_dev rm_dev_example_env ["delete", "a", "b", "c", "/mnt"]).status = .ret 1 :=
  have h := rm_dev_requests_reports_status rm_dev_example_env
    ["delete", "a", "b", "c", "/mnt"] (by decide) (by decide)
  ⟨by decide, by decide, h.1.trans (by decide), h.2.1.trans (by decide),
    h.2.2.1 ⟨1, by decide, by decide, by decide⟩⟩

/-! ## `add`: independent progress and the exit status -/

theorem add_dev_loop_tested (env : Env) (argv : List String) (fd : Int)
    (discard force : Bool) :
    ∀ (n i : Nat) (ret : Int) (tr : List Event),
      (add_dev_loop env argv fd discard force n i ret tr).2.filterMap Event.tested
        = tr.filterMap Event.tested ++ (List.range' i n).map (arg argv) := by
  intro n
  induction n with
  | zero => intro i ret tr; simp [add_dev_loop]
  | succ n ih =>
    intro i ret tr
    simp only [add_dev_loop]
    split_ifs <;> simp [ih, List.range'_succ, Event.tested]

theorem add_dev_loop_requests (env : Env) (argv : List String) (fd : Int)
    (discard force : Bool) :
    ∀ (n i : Nat) (ret : Int) (tr : List Event),
      (add_dev_loop env argv fd discard force n i ret tr).2.filterMap Event.request
        = tr.filterMap Event.request
          ++ ((List.range' i n).filter (add_dev_prepared env argv discard force)).map
              (fun j => Ioctl.BTRFS_IOC_ADD_DEV
                (strncpy_null env.BTRFS_PATH_NAME_MAX (arg argv j))) := by
  intro n
  induction n with
  | zero => intro i ret tr; simp [add_dev_loop]
  | succ n ih =>
    intro i ret tr
    simp only [add_dev_loop]
    split_ifs with h1 h2 h3 h4
    · have hp : add_dev_prepared env argv discard force i = false := by
        simp [add_dev_prepared, h1]
      simp [ih, List.range'_succ, Event.request, List.filter_cons, hp]
    · have hp : add_dev_prepared env argv discard force i = false := by
        simp [add_dev_prepared, h2]
      simp [ih, List.range'_succ, Event.request, List.filter_cons, hp]
    · have hp : add_dev_prepared env argv discard force i = false := by
        simp [add_dev_prepared, h3]
      simp [ih, List.range'_succ, Event.request, List.filter_cons, hp]
    · have hp : add_dev_prepared env argv discard force i = true := by
        simp only [add_dev_prepared, Bool.and_eq_true, decide_eq_true_eq]
        exact ⟨⟨not_not.mp h1, not_lt.mp h2⟩, not_not.mp h3⟩
      simp [ih, List.range'_succ, Event.request, List.filter_cons, hp]
    · have hp : add_dev_prepared env argv discard force i = true := by
        simp only [add_dev_prepared, Bool.and_eq_true, decide_eq_true_eq]
        exact ⟨⟨not_not.mp h1, not_lt.mp h2⟩, not_not.mp h3⟩
      simp [ih, List.range'_succ, Event.request, List.filter_cons, hp]

theorem add_dev_loop_ret (env : Env) (argv : List String) (fd : Int)
    (discard force : Bool) :
    ∀ (n i : Nat) (ret : Int) (tr : List Event),
      (add_dev_loop env argv fd discard force n i ret tr).1
        = ret + (((List.range' i n).filter
            (add_dev_failed env argv fd discard force)).length : Int) := by
  intro n
  induction n with
  | zero => intro i ret tr; simp [add_dev_loop]
  | succ n ih =>
    intro i ret tr
    simp only [add_dev_loop]
    split_ifs with h1 h2 h3 h4
    · have hf : add_dev_failed env argv fd discard force i = true := by
        simp [add_dev_failed, add_dev_prepared, h1]
      simp [ih, List.range'_succ, List.filter_cons, hf]; ring
    · have hf : add_dev_failed env argv fd discard force i = true := by
        simp [add_dev_failed, add_dev_prepared, h2]
      simp [ih, List.range'_succ, List.filter_cons, hf]; ring
    · have hf : add_dev_failed env argv fd discard force i = true := by
        simp [add_dev_failed, add_dev_prepared, h3]
      simp [ih, List.range'_succ, List.filter_cons, hf]; ring
    · have hf : add_dev_failed env argv fd discard force i = true := by
        simp [add_dev_failed, h4]
      simp [ih, List.range'_succ, List.filter_cons, hf]; ring
    · have hf : add_dev_failed env argv fd discard force i = false := by
        simp only [add_dev_failed, add_dev_prepared, Bool.or_eq_false_iff,
          Bool.not_eq_false', Bool.and_eq_true, decide_eq_true_eq, decide_eq_false_iff_not]
        exact ⟨⟨⟨not_not.mp h1, not_lt.mp h2⟩, not_not.mp h3⟩, h4⟩
      simp [ih, List.range'_succ, List.filter_cons, hf]

theorem cmd_add_dev_run (env : Env) (argv : List String) (opts : List Char) (optind : Nat)
    (st : Bool × Bool) (hopts : add_dev_options opts (true, false) = some st)
    (hargs : optind + 2 ≤ argv.length)
    (hopen : 0 ≤ env.open_file_or_dir (arg argv (argv.length - 1))) :
    cmd_add_dev env argv opts optind
      = ⟨.ret (notnot (add_dev_loop env argv
            (env.open_file_or_dir (arg argv (argv.length - 1))) st.1 st.2
            (argv.length - optind - 1) optind 0
            [.open_file_or_dir (arg argv (argv.length - 1))]).1),
          (add_dev_loop env argv
            (env.open_file_or_dir (arg argv (argv.length - 1))) st.1 st.2
            (argv.length - optind - 1) optind 0
            [.open_file_or_dir (arg argv (argv.length - 1))]).2
          ++ [.close_file_or_dir (env.open_file_or_dir (arg argv (argv.length - 1)))]⟩ := by
  have hmin : check_argc_min (argv.length - optind) 2 = false := by
    simp only [check_argc_min, decide_eq_false_iff_not]; omega
  have hlast : optind + (argv.length - optind) - 1 = argv.length - 1 := by omega
  have hcount : argv.length - 1 - optind = argv.length - optind - 1 := by omega
  have hfd : ¬ env.open_file_or_dir (arg argv (argv.length - 1)) < 0 := by omega
  simp only [cmd_add_dev, hopts, hmin, hlast, hcount, if_neg hfd]
  simp

/-- C1: in an `add` run whose options parse (to `st = (discard, force)`), that has at
least one device plus the target path after the options, and whose target path opens:
`test_dev_for_mkfs` is called on every listed device `argv[optind], ..., argv[argc-2]`, in
that order, whatever happened to the devices before it; the requests sent are one
`BTRFS_IOC_ADD_DEV` for each device that passed the suitability check, the open and the
preparation, and for no other; and the handler returns a code that is nonzero exactly
when some listed device failed at some step. -/
theorem add_dev_independent_progress (env : Env) (argv : List String) (opts : List Char)
    (optind : Nat) (st : Bool × Bool)
    (hopts : add_dev_options opts (true, false) = some st)
    (hargs : optind + 2 ≤ argv.length)
    (hopen : 0 ≤ env.open_file_or_dir (arg argv (argv.length - 1))) :
    (cmd_add_dev env argv opts optind).trace.filterMap Event.tested
        = (List.range' optind (argv.length - optind - 1)).map (arg argv)
    ∧ (cmd_add_dev env argv opts optind).trace.filterMap Event.request
        = ((List.range' optind (argv.length - optind - 1)).filter
            (add_dev_prepared env argv st.1 st.2)).map
              (fun i => Ioctl.BTRFS_IOC_ADD_DEV
                (strncpy_null env.BTRFS_PATH_NAME_MAX (arg argv i)))
    ∧ ∃ code : Int, (cmd_add_dev env argv opts optind).status = .ret code
        ∧ (code ≠ 0 ↔ ∃ i, optind ≤ i ∧ i < argv.length - 1
            ∧ add_dev_failed env argv (env.open_file_or_dir (arg argv (argv.length - 1)))
                st.1 st.2 i = true) := by
  rw [cmd_add_dev_run env argv opts optind st hopts hargs hopen]
  refine ⟨?_, ?_, _, rfl, ?_⟩
  · simp [add_dev_loop_tested, Event.tested]
  · simp [add_dev_loop_requests, Event.request]
  · simp only [add_dev_loop_ret, notnot, zero_add]
    constructor
    · intro hne
      have hlen : ((List.range' optind (argv.length - optind - 1)).filter
          (add_dev_failed env argv (env.open_file_or_dir (arg argv (argv.length - 1)))
            st.1 st.2)).length ≠ 0 := by
        intro h0
        apply hne
        rw [h0]
        simp
      obtain ⟨i, hi⟩ := List.exists_mem_of_length_pos (Nat.pos_of_ne_zero hlen)
      simp only [List.mem_filter, List.mem_range'_1] at hi
      exact ⟨i, hi.1.1, by omega, hi.2⟩
    · rintro ⟨i, h1, h2, hf⟩
      have hmem : i ∈ (List.range' optind (argv.length - optind - 1)).filter
          (add_dev_failed env argv (env.open_file_or_dir (arg argv (argv.length - 1)))
            st.1 st.2) := by
        simp only [List.mem_filter, List.mem_range'_1]
        exact ⟨⟨h1, by omega⟩, hf⟩
      have hpos := List.length_pos_of_mem hmem
      rw [if_pos (by exact_mod_cast hpos.ne')]
      decide

/-- Witness for C1: `add -f devA devB /mnt/fs` where preparing `devA` fails and `devB`
goes through: both devices are checked, only `devB` is attached, the status is 1. -/
theorem add_dev_independent_progress_witness :
    add_dev_options ['f'] (true, false) = some (true, true)
    ∧ 2 + 2 ≤ ["add", "-f", "devA", "devB", "/mnt/fs"].length
    ∧ 0 ≤ add_dev_example_env.open_file_or_dir
        (arg ["add", "-f", "devA", "devB", "/mnt/fs"] 4)
    ∧ (cmd_add_dev add_dev_example_env ["add", "-f", "devA", "devB", "/mnt/fs"] ['f']
          2).trace.filterMap Event.tested = ["devA", "devB"]
    ∧ (cmd_add_dev add_dev_example_env ["add", "-f", "devA", "devB", "/mnt/fs"] ['f']
          2).trace.filterMap Event.request = [.BTRFS_IOC_ADD_DEV "devB"]
    ∧ (∃ code : Int, (cmd_add_dev add_dev_example_env
          ["add", "-f", "devA", "devB", "/mnt/fs"] ['f'] 2).status = .ret code ∧ code ≠ 0)
    ∧ (cmd_add_dev add_dev_example_env ["add", "-f", "devA", "devB", "/mnt/fs"] ['f']
          2).status = .ret 1 :=
  have h := add_dev_independent_progress add_dev_example_env
    ["add", "-f", "devA", "devB", "/mnt/fs"] ['f'] 2 (true, true)
    (by decide) (by decide) (by decide)
  ⟨by decide, by decide, by decide, h.1.trans (by decide), h.2.1.trans (by decide),
    h.2.2.elim (fun code hc => ⟨code, hc.1, hc.2.mpr ⟨2, by decide, by decide, by decide⟩⟩),
    by decide⟩

/-- C10 (as amended): in an `add` run whose options parse, that has at least one device
plus the target path, and whose target path opens, the handler returns `!!ret` where
`ret` counts the listed devices that failed (at the suitability check, the open, the
preparation or the attach request): 0 when none failed and 1 when one or more did. -/
theorem add_dev_status_normalised (env : Env) (argv : List String) (opts : List Char)
    (optind : Nat) (st : Bool × Bool)
    (hopts : add_dev_options opts (true, false) = some st)
    (hargs : optind + 2 ≤ argv.length)
    (hopen : 0 ≤ env.open_file_or_dir (arg argv (argv.length - 1))) :
    (cmd_add_dev env argv opts optind).status
      = .ret (if ((List.range' optind (argv.length - optind - 1)).filter
            (add_dev_failed env argv (env.open_file_or_dir (arg argv (argv.length - 1)))
              st.1 st.2)).length = 0 then 0 else 1) := by
  rw [cmd_add_dev_run env argv opts optind st hopts hargs hopen]
  simp only [add_dev_loop_ret, notnot, zero_add]
  by_cases h0 : ((List.range' optind (argv.length - optind - 1)).filter
      (add_dev_failed env argv (env.open_file_or_dir (arg argv (argv.length - 1)))
        st.1 st.2)).length = 0
  · rw [h0]; simp
  · rw [if_neg h0, if_pos (by exact_mod_cast h0)]

/-- Witness for the amended C10: `add devA devB devC /mnt/fs` with every device rejected
returns 1. -/
theorem add_dev_status_normalised_witness :
    add_dev_options [] (true, false) = some (true, false)
    ∧ 1 + 2 ≤ ["add", "devA", "devB", "devC", "/mnt/fs"].length
    ∧ 0 ≤ add_dev_reject_env.open_file_or_dir
        (arg ["add", "devA", "devB", "devC", "/mnt/fs"] 4)
    ∧ (cmd_add_dev add_dev_reject_env ["add", "devA", "devB", "devC", "/mnt/fs"] []
          1).status = .ret 1 :=
  ⟨by decide, by decide, by decide,
    (add_dev_status_normalised add_dev_reject_env ["add", "devA", "devB", "devC", "/mnt/fs"]
      [] 1 (true, false) (by decide) (by decide) (by decide)).trans (by decide)⟩

/-- C10 (counterexample): `add devA devB /mnt/fs` where the suitability check rejects both
devices: two devices failed, and the handler returns 1, not 2. -/
theorem add_dev_status_not_count :
    ((List.range' 1 2).filter (add_dev_failed add_dev_reject_env
        ["add", "devA", "devB", "/mnt/fs"]
        (add_dev_reject_env.open_file_or_dir "/mnt/fs") true false)).length = 2
    ∧ (cmd_add_dev add_dev_reject_env ["add", "devA", "devB", "/mnt/fs"] [] 1).status
        = .ret 1
    ∧ (cmd_add_dev add_dev_reject_env ["add", "devA", "devB", "/mnt/fs"] [] 1).status
        ≠ .ret 2 := by
  decide

/-! ## `scan`: stop at the first failing request -/

theorem scan_dev_loop_clean (env : Env) (argv : List String) (fd : Int) :
    ∀ (n i : Nat) (tr : List Event),
      (∀ j, i ≤ j → j < i + n → 0 ≤ scan_dev_answer env argv fd j) →
      (scan_dev_loop env argv fd n i tr).status = .ret 0
      ∧ (scan_dev_loop env argv fd n i tr).trace.filterMap Event.request
          = tr.filterMap Event.request ++ (List.range' i n).map (fun j =>
              Ioctl.BTRFS_IOC_SCAN_DEV (strncpy_null env.BTRFS_PATH_NAME_MAX (arg argv j))) := by
  intro n
  induction n with
  | zero => intro i tr _; simp [scan_dev_loop, Event.request]
  | succ n ih =>
    intro i tr hall
    have hi : ¬ (env.ioctl i fd
        (.BTRFS_IOC_SCAN_DEV (strncpy_null env.BTRFS_PATH_NAME_MAX (arg argv i)))).1 < 0 := by
      have := hall i (le_refl i) (by omega)
      simp only [scan_dev_answer] at this
      omega
    have hrest := ih (i + 1)
      (tr ++ [.stdout ("Scanning for Btrfs filesystems in '" ++ arg argv i ++ "'\n"),
        .ioctl fd (.BTRFS_IOC_SCAN_DEV (strncpy_null env.BTRFS_PATH_NAME_MAX (arg argv i)))])
      (fun j h1 h2 => hall j (by omega) (by omega))
    simp only [scan_dev_loop, if_neg hi]
    refine ⟨hrest.1, ?_⟩
    rw [hrest.2]
    simp [List.range'_succ, Event.request]

theorem scan_dev_loop_stops (env : Env) (argv : List String) (fd : Int) :
    ∀ (n i : Nat) (tr : List Event) (k : Nat), i ≤ k → k < i + n →
      scan_dev_answer env argv fd k < 0 →
      (∀ j, i ≤ j → j < k → 0 ≤ scan_dev_answer env argv fd j) →
      (scan_dev_loop env argv fd n i tr).status = .ret 1
      ∧ (scan_dev_loop env argv fd n i tr).trace.filterMap Event.request
          = tr.filterMap Event.request ++ (List.range' i (k + 1 - i)).map (fun j =>
              Ioctl.BTRFS_IOC_SCAN_DEV (strncpy_null env.BTRFS_PATH_NAME_MAX (arg argv j))) := by
  intro n
  induction n with
  | zero => intro i tr k h1 h2; omega
  | succ n ih =>
    intro i tr k h1 h2 hneg hbefore
    by_cases hi : (env.ioctl i fd
        (.BTRFS_IOC_SCAN_DEV (strncpy_null env.BTRFS_PATH_NAME_MAX (arg argv i)))).1 < 0
    · have hk : k = i := by
        by_contra hne
        have := hbefore i (le_refl i) (by omega)
        simp only [scan_dev_answer] at this
        omega
      subst hk
      have hone : k + 1 - k = 1 := by omega
      simp only [scan_dev_loop, if_pos hi, hone]
      simp [Event.request]
    · have hk : i + 1 ≤ k := by
        by_contra hlt
        have hki : k = i := by omega
        subst hki
        exact hi hneg
      have hrest := ih (i + 1)
        (tr ++ [.stdout ("Scanning for Btrfs filesystems in '" ++ arg argv i ++ "'\n"),
          .ioctl fd
            (.BTRFS_IOC_SCAN_DEV (strncpy_null env.BTRFS_PATH_NAME_MAX (arg argv i)))])
        k hk (by omega) hneg (fun j h1 h2 => hbefore j (by omega) h2)
      have hlen : k + 1 - i = (k + 1 - (i + 1)) + 1 := by omega
      simp only [scan_dev_loop, if_neg hi]
      refine ⟨hrest.1, ?_⟩
      rw [hrest.2, hlen]
      simp [List.range'_succ, Event.request]

theorem cmd_scan_dev_explicit (env : Env) (argv : List String) (hargs : 2 ≤ argv.length)
    (hflag : arg argv 1 ≠ "--all-devices") (hopen : 0 ≤ env.open_control) :
    cmd_scan_dev env argv
      = scan_dev_loop env argv env.open_control (argv.length - 1) 1
          [.open_rdwr "/dev/btrfs-control"] := by
  have hall : (decide (argv.length > 1) && (arg argv 1 == "--all-devices")) = false := by
    simp [hflag]
  have hle : ¬ argv.length ≤ 1 := by omega
  have hfd : ¬ env.open_control < 0 := by omega
  simp only [cmd_scan_dev, hall]
  simp [hle, hfd]

/-- C3: in a `scan` run with one or more device paths, no `--all-devices` flag, and a
control endpoint that opens: if no request gets a negative answer, one
`BTRFS_IOC_SCAN_DEV` is sent per path `argv[1], ..., argv[argc-1]` in order and the status
is 0; if `argv[k]` is the first path whose request gets a negative answer, the requests
sent are those for `argv[1], ..., argv[k]` in order, none for a later path, and the status
is 1. -/
theorem scan_dev_fail_fast (env : Env) (argv : List String) (hargs : 2 ≤ argv.length)
    (hflag : arg argv 1 ≠ "--all-devices") (hopen : 0 ≤ env.open_control) :
    ((∀ j, 1 ≤ j → j < argv.length → 0 ≤ scan_dev_answer env argv env.open_control j) →
      (cmd_scan_dev env argv).status = .ret 0
      ∧ (cmd_scan_dev env argv).trace.filterMap Event.request
          = (List.range' 1 (argv.length - 1)).map (fun j =>
              Ioctl.BTRFS_IOC_SCAN_DEV (strncpy_null env.BTRFS_PATH_NAME_MAX (arg argv j))))
    ∧ (∀ k, 1 ≤ k → k < argv.length →
        scan_dev_answer env argv env.open_control k < 0 →
        (∀ j, 1 ≤ j → j < k → 0 ≤ scan_dev_answer env argv env.open_control j) →
        (cmd_scan_dev env argv).status = .ret 1
        ∧ (cmd_scan_dev env argv).trace.filterMap Event.request
            = (List.range' 1 k).map (fun j =>
                Ioctl.BTRFS_IOC_SCAN_DEV
                  (strncpy_null env.BTRFS_PATH_NAME_MAX (arg argv j)))) := by
  rw [cmd_scan_dev_explicit env argv hargs hflag hopen]
  constructor
  · intro hall
    have h := scan_dev_loop_clean env argv env.open_control (argv.length - 1) 1
      [.open_rdwr "/dev/btrfs-control"] (fun j h1 h2 => hall j h1 (by omega))
    refine ⟨h.1, ?_⟩
    rw [h.2]
    simp [Event.request]
  · intro k h1 h2 hneg hbefore
    have h := scan_dev_loop_stops env argv env.open_control (argv.length - 1) 1
      [.open_rdwr "/dev/btrfs-control"] k h1 (by omega) hneg hbefore
    have hk : k + 1 - 1 = k := by omega
    refine ⟨h.1, ?_⟩
    rw [h.2, hk]
    simp [Event.request]

/-- Witness for C3: `scan device1 device2` where the request for `device1` fails sends
that one request and returns 1; when no request fails both paths get a request and the
status is 0. -/
theorem scan_dev_fail_fast_witness :
    2 ≤ ["scan", "device1", "device2"].length
    ∧ arg ["scan", "device1", "device2"] 1 ≠ "--all-devices"
    ∧ 0 ≤ scan_dev_example_env.open_control
    ∧ (cmd_scan_dev scan_dev_example_env ["scan", "device1", "device2"]).status = .ret 1
    ∧ (cmd_scan_dev scan_dev_example_env ["scan", "device1", "device2"]).trace.filterMap
          Event.request = [.BTRFS_IOC_SCAN_DEV "device1"]
    ∧ (cmd_scan_dev Env.quiet ["scan", "device1", "device2"]).status = .ret 0
    ∧ (cmd_scan_dev Env.quiet ["scan", "device1", "device2"]).trace.filterMap
          Event.request = [.BTRFS_IOC_SCAN_DEV "device1", .BTRFS_IOC_SCAN_DEV "device2"] :=
  have h := (scan_dev_fail_fast scan_dev_example_env ["scan", "device1", "device2"]
    (by decide) (by decide) (by decide)).2 1 (by decide) (by decide) (by decide)
    (fun j h1 h2 => absurd h2 (by omega))
  have hq := (scan_dev_fail_fast Env.quiet ["scan", "device1", "device2"]
    (by decide) (by decide) (by decide)).1 (fun _ _ _ => le_refl (0 : Int))
  ⟨by decide, by decide, by decide, h.1, h.2.trans (by decide), hq.1,
    hq.2.trans (by decide)⟩

/-- C7: a `scan` argument vector whose first argument after the verb is `--all-devices`
and which has a further argument ends in `usage()`, and before that no `scan_for_btrfs`
probe is issued, nothing is opened, and no request is sent. -/
theorem scan_all_devices_extra_is_usage (env : Env) (argv : List String)
    (hflag : arg argv 1 = "--all-devices") (hextra : 3 ≤ argv.length) :
    (cmd_scan_dev env argv).status = .usage
    ∧ (cmd_scan_dev env argv).trace.filterMap Event.probe = []
    ∧ (cmd_scan_dev env argv).trace.filterMap Event.opened = []
    ∧ (cmd_scan_dev env argv).trace.filterMap Event.request = [] := by
  have hall : (decide (argv.length > 1) && (arg argv 1 == "--all-devices")) = true := by
    simp only [hflag, Bool.and_eq_true, decide_eq_true_eq, beq_self_eq_true, and_true]
    omega
  have hmax : check_argc_max argv.length 2 = true := by
    simp only [check_argc_max, decide_eq_true_eq]; omega
  simp [cmd_scan_dev, hall, hmax]

/-- Witness for C7: `scan --all-devices extra-arg`. -/
theorem scan_all_devices_extra_is_usage_witness :
    arg ["scan", "--all-devices", "extra-arg"] 1 = "--all-devices"
    ∧ 3 ≤ ["scan", "--all-devices", "extra-arg"].length
    ∧ (cmd_scan_dev Env.quiet ["scan", "--all-devices", "extra-arg"]).status = .usage
    ∧ (cmd_scan_dev Env.quiet ["scan", "--all-devices", "extra-arg"]).trace.filterMap
        Event.probe = [] :=
  have h := scan_all_devices_extra_is_usage Env.quiet
    ["scan", "--all-devices", "extra-arg"] (by decide) (by decide)
  ⟨by decide, by decide, h.1, h.2.1⟩

/-- C9 (counterexample): `scan` without arguments probes with the scope
`BTRFS_SCAN_LBLKID`, `scan --all-devices` with the scope `BTRFS_SCAN_DEV`: the two probes
do not carry the same scope argument. -/
theorem scan_default_probe_differs :
    (cmd_scan_dev Env.quiet ["scan"]).trace.filterMap Event.probe
        = [(.BTRFS_SCAN_LBLKID, .BTRFS_UPDATE_KERNEL)]
    ∧ (cmd_scan_dev Env.quiet ["scan", "--all-devices"]).trace.filterMap Event.probe
        = [(.BTRFS_SCAN_DEV, .BTRFS_UPDATE_KERNEL)]
    ∧ (cmd_scan_dev Env.quiet ["scan"]).trace.filterMap Event.probe
        ≠ (cmd_scan_dev Env.quiet ["scan", "--all-devices"]).trace.filterMap Event.probe := by
  decide

/-- C9 (as amended): `scan` with no argument after the verb and `scan --all-devices` each
issue exactly one `scan_for_btrfs` probe, both with the update mode
`BTRFS_UPDATE_KERNEL`; the scope is `BTRFS_SCAN_LBLKID` without arguments and
`BTRFS_SCAN_DEV` with the flag; neither run opens the control endpoint or sends a
per-device scan request. -/
theorem scan_default_probe (env : Env) (verb : String) :
    (cmd_scan_dev env [verb]).trace.filterMap Event.probe
        = [(.BTRFS_SCAN_LBLKID, .BTRFS_UPDATE_KERNEL)]
    ∧ (cmd_scan_dev env [verb, "--all-devices"]).trace.filterMap Event.probe
        = [(.BTRFS_SCAN_DEV, .BTRFS_UPDATE_KERNEL)]
    ∧ (cmd_scan_dev env [verb]).trace.filterMap Event.opened = []
    ∧ (cmd_scan_dev env [verb, "--all-devices"]).trace.filterMap Event.opened = []
    ∧ (cmd_scan_dev env [verb]).trace.filterMap Event.request = []
    ∧ (cmd_scan_dev env [verb, "--all-devices"]).trace.filterMap Event.request = [] := by
  have h1 : cmd_scan_dev env [verb]
      = if env.scan_for_btrfs .BTRFS_SCAN_LBLKID .BTRFS_UPDATE_KERNEL ≠ 0 then
          ⟨.ret 1, [.stdout "Scanning for Btrfs filesystems\n",
            .scan_for_btrfs .BTRFS_SCAN_LBLKID .BTRFS_UPDATE_KERNEL,
            .stderr ("ERROR: error "
              ++ toString (env.scan_for_btrfs .BTRFS_SCAN_LBLKID .BTRFS_UPDATE_KERNEL)
              ++ " while scanning\n")]⟩
        else
          ⟨.ret 0, [.stdout "Scanning for Btrfs filesystems\n",
            .scan_for_btrfs .BTRFS_SCAN_LBLKID .BTRFS_UPDATE_KERNEL]⟩ := by
    simp [cmd_scan_dev]
  have h2 : cmd_scan_dev env [verb, "--all-devices"]
      = if env.scan_for_btrfs .BTRFS_SCAN_DEV .BTRFS_UPDATE_KERNEL ≠ 0 then
          ⟨.ret 1, [.stdout "Scanning for Btrfs filesystems\n",
            .scan_for_btrfs .BTRFS_SCAN_DEV .BTRFS_UPDATE_KERNEL,
            .stderr ("ERROR: error "
              ++ toString (env.scan_for_btrfs .BTRFS_SCAN_DEV .BTRFS_UPDATE_KERNEL)
              ++ " while scanning\n")]⟩
        else
          ⟨.ret 0, [.stdout "Scanning for Btrfs filesystems\n",
            .scan_for_btrfs .BTRFS_SCAN_DEV .BTRFS_UPDATE_KERNEL]⟩ := by
    simp [cmd_scan_dev, arg, check_argc_max]
  rw [h1, h2]
  refine ⟨?_, ?_, ?_, ?_, ?_, ?_⟩ <;> split_ifs <;>
    simp [Event.probe, Event.opened, Event.request]

/-! ## Bounded copies of a name -/

theorem strncpy_short (n : Nat) (s : String) (h : s.length ≤ n) : strncpy n s = s := by
  have hlen : s.data.length ≤ n := h
  simp only [strncpy]
  rw [List.take_of_length_le hlen]

theorem strncpy_null_short (n : Nat) (s : String) (h : s.length ≤ n) :
    strncpy_null n s = s := by
  have hlen : s.data.length ≤ n := h
  simp only [strncpy_null]
  rw [List.take_of_length_le hlen]

theorem strncpy_null_long (n : Nat) (s : String) (h : n < s.length) :
    (strncpy_null n s).length = n ∧ (strncpy_null n s).data <+: s.data := by
  have hlen : n < s.data.length := h
  constructor
  · show (s.data.take n).length = n
    rw [List.length_take]
    omega
  · exact List.take_prefix n s.data

/-! ## `ready`: one query, raw propagation of the answer -/

/-- C5: in a `ready` run with at least one argument after the verb and a control endpoint
that opens, exactly one request is sent, a `BTRFS_IOC_DEVICES_READY` whose name is the
bounded copy of the last argument (the last argument itself when it fits the bound); with
`r` the answer of the driver, the handler returns 1 when `r < 0` and `r` itself when
`0 ≤ r`. -/
theorem ready_dev_single_query (env : Env) (argv : List String) (hargs : 2 ≤ argv.length)
    (hopen : 0 ≤ env.open_control) :
    (cmd_ready_dev env argv).trace.filterMap Event.request
        = [.BTRFS_IOC_DEVICES_READY
            (strncpy env.BTRFS_PATH_NAME_MAX (arg argv (argv.length - 1)))]
    ∧ ((arg argv (argv.length - 1)).length ≤ env.BTRFS_PATH_NAME_MAX →
        (cmd_ready_dev env argv).trace.filterMap Event.request
          = [.BTRFS_IOC_DEVICES_READY (arg argv (argv.length - 1))])
    ∧ ((env.ioctl 0 env.open_control (.BTRFS_IOC_DEVICES_READY
          (strncpy env.BTRFS_PATH_NAME_MAX (arg argv (argv.length - 1))))).1 < 0 →
        (cmd_ready_dev env argv).status = .ret 1)
    ∧ (0 ≤ (env.ioctl 0 env.open_control (.BTRFS_IOC_DEVICES_READY
          (strncpy env.BTRFS_PATH_NAME_MAX (arg argv (argv.length - 1))))).1 →
        (cmd_ready_dev env argv).status = .ret (env.ioctl 0 env.open_control
          (.BTRFS_IOC_DEVICES_READY
            (strncpy env.BTRFS_PATH_NAME_MAX (arg argv (argv.length - 1))))).1) := by
  have hmin : check_argc_min argv.length 2 = false := by
    simp only [check_argc_min, decide_eq_false_iff_not]; omega
  have hfd : ¬ env.open_control < 0 := by omega
  have hreq : (cmd_ready_dev env argv).trace.filterMap Event.request
      = [.BTRFS_IOC_DEVICES_READY
          (strncpy env.BTRFS_PATH_NAME_MAX (arg argv (argv.length - 1)))] := by
    by_cases hneg : (env.ioctl 0 env.open_control (.BTRFS_IOC_DEVICES_READY
        (strncpy env.BTRFS_PATH_NAME_MAX (arg argv (argv.length - 1))))).1 < 0
    · simp only [cmd_ready_dev, hmin, if_neg hfd]
      simp [hneg, Event.request]
    · simp only [cmd_ready_dev, hmin, if_neg hfd]
      simp [hneg, Event.request]
  refine ⟨hreq, ?_, ?_, ?_⟩
  · intro hfit
    rw [hreq, strncpy_short _ _ hfit]
  · intro hneg
    simp only [cmd_ready_dev, hmin, if_neg hfd]
    simp [hneg]
  · intro hpos
    have hnot : ¬ (env.ioctl 0 env.open_control (.BTRFS_IOC_DEVICES_READY
        (strncpy env.BTRFS_PATH_NAME_MAX (arg argv (argv.length - 1))))).1 < 0 := by omega
    simp only [cmd_ready_dev, hmin, if_neg hfd]
    simp [hnot]

/-- Witness for C5: `ready /dev/sdb` with the driver answering 7 sends one query for
`/dev/sdb` and returns 7. -/
theorem ready_dev_single_query_witness :
    2 ≤ ["ready", "/dev/sdb"].length
    ∧ 0 ≤ ready_dev_example_env.open_control
    ∧ (cmd_ready_dev ready_dev_example_env ["ready", "/dev/sdb"]).trace.filterMap
        Event.request = [.BTRFS_IOC_DEVICES_READY "/dev/sdb"]
    ∧ (cmd_ready_dev ready_dev_example_env ["ready", "/dev/sdb"]).status = .ret 7 :=
  have h := ready_dev_single_query ready_dev_example_env ["ready", "/dev/sdb"]
    (by decide) (by decide)
  ⟨by decide, by decide, h.2.1 (by decide), (h.2.2.2 (by decide)).trans (by decide)⟩

/-! ## `add` and `delete` bound a name the same way -/

/-- C8: for every device name `s`, when `add s mnt` gets as far as its attach request
and `delete s mnt` reaches its loop, the two requests carry the same name field; the
field is `s` itself when `s` is no longer than the bound, and otherwise a prefix of `s`
whose length is the bound. -/
theorem add_rm_same_name (env : Env) (verb s mnt : String)
    (hopen : 0 ≤ env.open_file_or_dir mnt)
    (hprep : add_dev_prepared env [verb, s, mnt] true false 1 = true) :
    ∃ name : String,
      (cmd_add_dev env [verb, s, mnt] [] 1).trace.filterMap Event.request
          = [.BTRFS_IOC_ADD_DEV name]
      ∧ (cmd_rm_dev env [verb, s, mnt]).trace.filterMap Event.request
          = [.BTRFS_IOC_RM_DEV name]
      ∧ (s.length ≤ env.BTRFS_PATH_NAME_MAX → name = s)
      ∧ (env.BTRFS_PATH_NAME_MAX < s.length →
          name.length = env.BTRFS_PATH_NAME_MAX ∧ name.data <+: s.data) := by
  have hmnt : arg [verb, s, mnt] ([verb, s, mnt].length - 1) = mnt := rfl
  have hopen2 : 0 ≤ env.open_file_or_dir (arg [verb, s, mnt] ([verb, s, mnt].length - 1)) := by
    rw [hmnt]; exact hopen
  refine ⟨strncpy_null env.BTRFS_PATH_NAME_MAX s, ?_, ?_, ?_, ?_⟩
  · rw [cmd_add_dev_run env [verb, s, mnt] [] 1 (true, false) rfl (Nat.le_refl 3) hopen2]
    simp [add_dev_loop_requests, Event.request, List.range'_succ, List.filter_cons, hprep,
      arg]
  · rw [cmd_rm_dev_run env [verb, s, mnt] (Nat.le_refl 3) hopen2]
    simp [rm_dev_loop_requests, Event.request, List.range'_succ, arg]
  · exact strncpy_null_short _ _
  · exact strncpy_null_long _ _

/-- Witness for C8: with a bound of four characters, `add /dev/sdb /mnt` and
`delete /dev/sdb /mnt` both send a name of length four. -/
theorem add_rm_same_name_witness :
    0 ≤ short_name_env.open_file_or_dir "/mnt"
    ∧ add_dev_prepared short_name_env ["add", "/dev/sdb", "/mnt"] true false 1 = true
    ∧ ∃ name : String,
        (cmd_add_dev short_name_env ["add", "/dev/sdb", "/mnt"] [] 1).trace.filterMap
            Event.request = [.BTRFS_IOC_ADD_DEV name]
        ∧ (cmd_rm_dev short_name_env ["add", "/dev/sdb", "/mnt"]).trace.filterMap
            Event.request = [.BTRFS_IOC_RM_DEV name]
        ∧ name.length = 4 :=
  ⟨by decide, by decide,
    (add_rm_same_name short_name_env "add" "/dev/sdb" "/mnt" (by decide) (by decide)).elim
      (fun name h => ⟨name, h.1, h.2.1, (h.2.2.2 (by decide)).1⟩)⟩

/-! ## `stats`: one query per device, one line per populated counter -/

theorem dev_stats_options_flags (env : Env) :
    ∀ (opts : List Char) (start flags : Nat),
      dev_stats_options env opts start = some flags →
      flags = if 'z' ∈ opts then env.BTRFS_DEV_STATS_RESET else start := by
  intro opts
  induction opts with
  | nil => intro start flags h; simpa [dev_stats_options] using h.symm
  | cons c cs ih =>
    intro start flags h
    by_cases hc : c = 'z'
    · subst hc
      simp only [dev_stats_options, if_true] at h
      have := ih _ _ h
      simp only [List.mem_cons, true_or, if_true]
      split_ifs at this <;> exact this
    · simp [dev_stats_options, hc] at h

theorem dev_stats_print_requests (path : String) (n : Nat) (values : Nat → Nat) :
    (dev_stats_print path n values).filterMap Event.request = [] := by
  simp only [dev_stats_print]
  split_ifs <;> simp [Event.request]

theorem dev_stats_print_lines (path : String) (n : Nat) (values : Nat → Nat) :
    (dev_stats_print path n values).filterMap Event.out_text
      = (List.range (min n 5)).map (fun k =>
          stats_report_line path (counter_kinds.getD k "") (values k)) := by
  have hw : stats_report_line path "write_io_errs" (values 0)
      = "[" ++ path ++ "].write_io_errs   " ++ toString (values 0) ++ "\n" := rfl
  have hr : stats_report_line path "read_io_errs" (values 1)
      = "[" ++ path ++ "].read_io_errs    " ++ toString (values 1) ++ "\n" := rfl
  have hf : stats_report_line path "flush_io_errs" (values 2)
      = "[" ++ path ++ "].flush_io_errs   " ++ toString (values 2) ++ "\n" := rfl
  have hc : stats_report_line path "corruption_errs" (values 3)
      = "[" ++ path ++ "].corruption_errs " ++ toString (values 3) ++ "\n" := rfl
  have hg : stats_report_line path "generation_errs" (values 4)
      = "[" ++ path ++ "].generation_errs " ++ toString (values 4) ++ "\n" := rfl
  rcases n with _ | _ | _ | _ | _ | n
  · simp [dev_stats_print, BTRFS_DEV_STAT_WRITE_ERRS, BTRFS_DEV_STAT_READ_ERRS,
      BTRFS_DEV_STAT_FLUSH_ERRS, BTRFS_DEV_STAT_CORRUPTION_ERRS,
      BTRFS_DEV_STAT_GENERATION_ERRS]
  · simp [dev_stats_print, BTRFS_DEV_STAT_WRITE_ERRS, BTRFS_DEV_STAT_READ_ERRS,
      BTRFS_DEV_STAT_FLUSH_ERRS, BTRFS_DEV_STAT_CORRUPTION_ERRS,
      BTRFS_DEV_STAT_GENERATION_ERRS, Event.out_text, List.range_succ, counter_kinds, hw]
  · simp [dev_stats_print, BTRFS_DEV_STAT_WRITE_ERRS, BTRFS_DEV_STAT_READ_ERRS,
      BTRFS_DEV_STAT_FLUSH_ERRS, BTRFS_DEV_STAT_CORRUPTION_ERRS,
      BTRFS_DEV_STAT_GENERATION_ERRS, Event.out_text, List.range_succ, counter_kinds, hw,
      hr]
  · simp [dev_stats_print, BTRFS_DEV_STAT_WRITE_ERRS, BTRFS_DEV_STAT_READ_ERRS,
      BTRFS_DEV_STAT_FLUSH_ERRS, BTRFS_DEV_STAT_CORRUPTION_ERRS,
      BTRFS_DEV_STAT_GENERATION_ERRS, Event.out_text, List.range_succ, counter_kinds, hw,
      hr, hf]
  · simp [dev_stats_print, BTRFS_DEV_STAT_WRITE_ERRS, BTRFS_DEV_STAT_READ_ERRS,
      BTRFS_DEV_STAT_FLUSH_ERRS, BTRFS_DEV_STAT_CORRUPTION_ERRS,
      BTRFS_DEV_STAT_GENERATION_ERRS, Event.out_text, List.range_succ, counter_kinds, hw,
      hr, hf, hc]
  · have hmin : min (n + 1 + 1 + 1 + 1 + 1) 5 = 5 := by omega
    rw [hmin]
    simp [dev_stats_print, BTRFS_DEV_STAT_WRITE_ERRS, BTRFS_DEV_STAT_READ_ERRS,
      BTRFS_DEV_STAT_FLUSH_ERRS, BTRFS_DEV_STAT_CORRUPTION_ERRS,
      BTRFS_DEV_STAT_GENERATION_ERRS, Event.out_text, List.range_succ, counter_kinds, hw,
      hr, hf, hc, hg]

theorem dev_stats_loop_requests (env : Env) (di_args : Nat → DevInfo) (fd : Int)
    (flags : Nat) :
    ∀ (n i : Nat) (err : Int) (tr : List Event),
      (dev_stats_loop env di_args fd flags n i err tr).2.filterMap Event.request
        = tr.filterMap Event.request
          ++ (List.range' i n).map (dev_stats_request di_args flags) := by
  intro n
  induction n with
  | zero => intro i err tr; simp [dev_stats_loop]
  | succ n ih =>
    intro i err tr
    simp only [dev_stats_loop]
    split_ifs <;>
      simp [ih, List.range'_succ, Event.request, dev_stats_print_requests,
        dev_stats_request]

theorem dev_stats_loop_lines (env : Env) (di_args : Nat → DevInfo) (fd : Int)
    (flags : Nat) :
    ∀ (n i : Nat) (err : Int) (tr : List Event),
      (dev_stats_loop env di_args fd flags n i err tr).2.filterMap Event.out_text
        = tr.filterMap Event.out_text
          ++ (List.range' i n).flatMap (fun j =>
              if (env.ioctl j fd (dev_stats_request di_args flags j)).1 < 0 then []
              else (List.range (min (env.dev_stats_reply j).1 5)).map (fun k =>
                stats_report_line
                  (strncpy env.BTRFS_DEVICE_PATH_NAME_MAX (di_args j).path)
                  (counter_kinds.getD k "") ((env.dev_stats_reply j).2 k))) := by
  intro n
  induction n with
  | zero => intro i err tr; simp [dev_stats_loop]
  | succ n ih =>
    intro i err tr
    simp only [dev_stats_loop]
    split_ifs with h
    · have h2 : (env.ioctl i fd (dev_stats_request di_args flags i)).1 < 0 := h
      simp [ih, List.range'_succ, Event.out_text, h2]
    · have h2 : ¬ (env.ioctl i fd (dev_stats_request di_args flags i)).1 < 0 := h
      simp only [ih, List.range'_succ, List.filterMap_append, dev_stats_print_lines,
        List.flatMap_cons, if_neg h2, List.append_assoc]
      simp [Event.out_text]

theorem cmd_dev_stats_run (env : Env) (argv : List String) (opts : List Char)
    (optind flags : Nat)
    (hopts : dev_stats_options env opts 0 = some flags)
    (hargs : optind + 1 = argv.length)
    (hopen : 0 ≤ env.open_path_or_dev_mnt (arg argv optind))
    (hinfo : (env.get_fs_info (arg argv optind)).1 = 0)
    (hdevs : 1 ≤ (env.get_fs_info (arg argv optind)).2.1) :
    cmd_dev_stats env argv opts optind
      = ⟨.ret (dev_stats_loop env (env.get_fs_info (arg argv optind)).2.2
            (env.open_path_or_dev_mnt (arg argv optind)) flags
            (env.get_fs_info (arg argv optind)).2.1 0 0
            [.open_path_or_dev_mnt (arg argv optind), .get_fs_info (arg argv optind)]).1,
          (dev_stats_loop env (env.get_fs_info (arg argv optind)).2.2
            (env.open_path_or_dev_mnt (arg argv optind)) flags
            (env.get_fs_info (arg argv optind)).2.1 0 0
            [.open_path_or_dev_mnt (arg argv optind), .get_fs_info (arg argv optind)]).2
          ++ [.close_file_or_dir (env.open_path_or_dev_mnt (arg argv optind))]⟩ := by
  have hfd : ¬ env.open_path_or_dev_mnt (arg argv optind) < 0 := by omega
  have hk : ¬ (env.get_fs_info (arg argv optind)).2.1 = 0 := by omega
  simp only [cmd_dev_stats, hopts]
  simp [hargs, hfd, hinfo, hk]

/-- C6: in a `stats` run whose options parse, that has exactly one argument after them,
whose path opens and resolves to a filesystem with `k ≥ 1` member devices, the requests
sent are exactly `k` in number, one `BTRFS_IOC_GET_DEV_STATS` per entry of the device
table in table order, each with that entry's device id, a slot count of
`BTRFS_DEV_STAT_VALUES_MAX`, and a flags field that is `BTRFS_DEV_STATS_RESET` when `-z`
was given and 0 otherwise; no other request is sent. -/
theorem dev_stats_one_query_per_device (env : Env) (argv : List String) (opts : List Char)
    (optind flags : Nat)
    (hopts : dev_stats_options env opts 0 = some flags)
    (hargs : optind + 1 = argv.length)
    (hopen : 0 ≤ env.open_path_or_dev_mnt (arg argv optind))
    (hinfo : (env.get_fs_info (arg argv optind)).1 = 0)
    (hdevs : 1 ≤ (env.get_fs_info (arg argv optind)).2.1) :
    (cmd_dev_stats env argv opts optind).trace.filterMap Event.request
        = (List.range (env.get_fs_info (arg argv optind)).2.1).map (fun i =>
            Ioctl.BTRFS_IOC_GET_DEV_STATS
              ((env.get_fs_info (arg argv optind)).2.2 i).devid
              BTRFS_DEV_STAT_VALUES_MAX
              (if 'z' ∈ opts then env.BTRFS_DEV_STATS_RESET else 0))
    ∧ ((cmd_dev_stats env argv opts optind).trace.filterMap Event.request).length
        = (env.get_fs_info (arg argv optind)).2.1 := by
  have hreq : (cmd_dev_stats env argv opts optind).trace.filterMap Event.request
      = (List.range (env.get_fs_info (arg argv optind)).2.1).map (fun i =>
          Ioctl.BTRFS_IOC_GET_DEV_STATS
            ((env.get_fs_info (arg argv optind)).2.2 i).devid
            BTRFS_DEV_STAT_VALUES_MAX
            (if 'z' ∈ opts then env.BTRFS_DEV_STATS_RESET else 0)) := by
    rw [cmd_dev_stats_run env argv opts optind flags hopts hargs hopen hinfo hdevs]
    rw [← dev_stats_options_flags env opts 0 flags hopts]
    simp only [List.filterMap_append, dev_stats_loop_requests, List.range_eq_range']
    simp [Event.request, dev_stats_request]
  refine ⟨hreq, ?_⟩
  rw [hreq]
  simp

/-- C4: in a `stats` run that reaches its device loop, the text on standard output is,
device by device in table order: nothing for a device whose query failed, and for a
device whose query succeeded with the populated-slot count `n` exactly `min n 5` lines,
where line `j` is the report line of the device path, the `j`-th counter kind of the
order write_io_errs, read_io_errs, flush_io_errs, corruption_errs, generation_errs, and
the value `values[j]`. -/
theorem dev_stats_lines_per_device (env : Env) (argv : List String) (opts : List Char)
    (optind flags : Nat)
    (hopts : dev_stats_options env opts 0 = some flags)
    (hargs : optind + 1 = argv.length)
    (hopen : 0 ≤ env.open_path_or_dev_mnt (arg argv optind))
    (hinfo : (env.get_fs_info (arg argv optind)).1 = 0)
    (hdevs : 1 ≤ (env.get_fs_info (arg argv optind)).2.1) :
    (cmd_dev_stats env argv opts optind).trace.filterMap Event.out_text
      = (List.range (env.get_fs_info (arg argv optind)).2.1).flatMap (fun i =>
          if (env.ioctl i (env.open_path_or_dev_mnt (arg argv optind))
              (.BTRFS_IOC_GET_DEV_STATS ((env.get_fs_info (arg argv optind)).2.2 i).devid
                BTRFS_DEV_STAT_VALUES_MAX flags)).1 < 0 then []
          else (List.range (min (env.dev_stats_reply i).1 5)).map (fun j =>
            stats_report_line
              (strncpy env.BTRFS_DEVICE_PATH_NAME_MAX
                ((env.get_fs_info (arg argv optind)).2.2 i).path)
              (counter_kinds.getD j "") ((env.dev_stats_reply i).2 j))) := by
  rw [cmd_dev_stats_run env argv opts optind flags hopts hargs hopen hinfo hdevs]
  simp only [List.filterMap_append, dev_stats_loop_lines, List.range_eq_range']
  simp [Event.out_text]
  rfl

/-- Witness for C6: `stats -z /mnt` on a filesystem of two devices sends two queries,
each carrying the reset flag, and nothing else. -/
theorem dev_stats_one_query_per_device_witness :
    dev_stats_options dev_stats_two_env ['z'] 0 = some 1
    ∧ 2 + 1 = ["stats", "-z", "/mnt"].length
    ∧ 0 ≤ dev_stats_two_env.open_path_or_dev_mnt (arg ["stats", "-z", "/mnt"] 2)
    ∧ (dev_stats_two_env.get_fs_info (arg ["stats", "-z", "/mnt"] 2)).1 = 0
    ∧ 1 ≤ (dev_stats_two_env.get_fs_info (arg ["stats", "-z", "/mnt"] 2)).2.1
    ∧ (cmd_dev_stats dev_stats_two_env ["stats", "-z", "/mnt"] ['z'] 2).trace.filterMap
        Event.request
        = [.BTRFS_IOC_GET_DEV_STATS 1 5 1, .BTRFS_IOC_GET_DEV_STATS 2 5 1] :=
  ⟨by decide, by decide, by decide, by decide, by decide,
    (dev_stats_one_query_per_device dev_stats_two_env ["stats", "-z", "/mnt"] ['z'] 2 1
      (by decide) (by decide) (by decide) (by decide) (by decide)).1.trans (by decide)⟩

/-- Witness for C4: with three populated slots `stats /mnt` prints exactly the lines for
write_io_errs, read_io_errs and flush_io_errs, in that order. -/
theorem dev_stats_lines_per_device_witness :
    dev_stats_options dev_stats_three_env [] 0 = some 0
    ∧ 1 + 1 = ["stats", "/mnt"].length
    ∧ 0 ≤ dev_stats_three_env.open_path_or_dev_mnt (arg ["stats", "/mnt"] 1)
    ∧ (dev_stats_three_env.get_fs_info (arg ["stats", "/mnt"] 1)).1 = 0
    ∧ 1 ≤ (dev_stats_three_env.get_fs_info (arg ["stats", "/mnt"] 1)).2.1
    ∧ (cmd_dev_stats dev_stats_three_env ["stats", "/mnt"] [] 1).trace.filterMap
        Event.out_text
        = ["[/dev/sda].write_io_errs   10\n", "[/dev/sda].read_io_errs    11\n",
           "[/dev/sda].flush_io_errs   12\n"] :=
  ⟨by decide, by decide, by decide, by decide, by decide,
    (dev_stats_lines_per_device dev_stats_three_env ["stats", "/mnt"] [] 1 0
      (by decide) (by decide) (by decide) (by decide) (by decide)).trans (by decide)⟩

end BtrfsDevice
